import Mathlib

/-
Shallow embedding of the Game Session component of willeagren/pychess
(src/game.py, class PychessGame).  The python-chess library (chess.Board,
chess.Move) is the external rules engine; the Session consumes it through
the operations listed in the spec (legal moves, move application, turn,
FEN encoding, terminal classification), so it is modelled here as an
abstract structure of those operations over an arbitrary board type.
Wall-clock timestamps (Python time.time, a float) are modelled as
rationals, and Python's math.ceil as the integer ceiling.  Python's
reference semantics for the single mutable chess.Board object is modelled
with an explicit object store: GameState.heap is the store, state_ref is
the reference held by self._state, and state-history stores references
(the code appends self._state itself, never a copy).
-/

namespace Pychess

namespace chess

/-- Model of chess.Move from python-chess: a source square, a target square, an
optional promotion piece index and an optional drop piece index
(squares 0..63, a1 = 0, h8 = 63). -/
structure Move where
  from_square : Nat
  to_square : Nat
  promotion : Option Nat
  drop : Option Nat
deriving DecidableEq

/-- Model of chess.Move.null(): the null move Move(0, 0). -/
def Move.null : Move := ⟨0, 0, none, none⟩

/-- Model of SQUARE_NAMES.index applied to a two-character square name: file letter
a..h and rank digit 1..8 give rank * 8 + file, any other pair raises
ValueError (modelled as none). -/
def square_index (f r : Char) : Option Nat :=
  if 'a' ≤ f ∧ f ≤ 'h' ∧ '1' ≤ r ∧ r ≤ '8' then
    some ((r.toNat - '1'.toNat) * 8 + (f.toNat - 'a'.toNat))
  else
    none

/-- Model of PIECE_SYMBOLS.index applied to a piece symbol character: the list is
[None, p, n, b, r, q, k], so the symbols map to 1..6 and any other
character raises ValueError (modelled as none). -/
def piece_symbol_index (c : Char) : Option Nat :=
  if c = 'p' then some 1
  else if c = 'n' then some 2
  else if c = 'b' then some 3
  else if c = 'r' then some 4
  else if c = 'q' then some 5
  else if c = 'k' then some 6
  else none

/-- Model of chess.Move.from_uci: returns the parsed move, or none where the
library raises InvalidMoveError ("0000" is the null move; a 4-character
string with "@" second is a drop move; otherwise 4 or 5 characters are two
square names plus an optional promotion symbol, and equal source and
target squares are rejected). -/
def from_uci (s : String) : Option Move :=
  if s = "0000" then some Move.null
  else
    match s.toList with
    | [c0, '@', c2, c3] =>
      match piece_symbol_index c0.toLower, square_index c2 c3 with
      | some d, some sq => some ⟨sq, sq, none, some d⟩
      | _, _ => none
    | [c0, c1, c2, c3] =>
      match square_index c0 c1, square_index c2 c3 with
      | some fs, some ts => if fs = ts then none else some ⟨fs, ts, none, none⟩
      | _, _ => none
    | [c0, c1, c2, c3, c4] =>
      match square_index c0 c1, square_index c2 c3, piece_symbol_index c4 with
      | some fs, some ts, some p => if fs = ts then none else some ⟨fs, ts, some p, none⟩
      | _, _, _ => none
    | _ => none

/-- Model of chess.Outcome: the terminal classification returned by
chess.Board.outcome(); winner is True for white, False for black, None
for a draw. -/
structure Outcome where
  winner : Option Bool
deriving DecidableEq

/-- Model of chess.Outcome.result(): "1-0" when white won, "0-1" when black won,
"1/2-1/2" for a draw. -/
def Outcome.result (o : Outcome) : String :=
  match o.winner with
  | some true => "1-0"
  | some false => "0-1"
  | none => "1/2-1/2"

end chess

/-- The operations of a chess.Board that PychessGame uses; the board
rules engine is an external collaborator, so the board type B and these
operations are parameters of the embedding.  legal_moves models
list(board.legal_moves), push models board.push (returning the board
value the mutated object holds afterwards), turn models board.turn
(true = white to move), fen models board.fen(), and outcome models
board.outcome() (none while the game is ongoing). -/
structure RulesEngine (B : Type) where
  legal_moves : B → List chess.Move
  push : B → chess.Move → B
  turn : B → Bool
  fen : B → String
  outcome : B → Option chess.Outcome

/-- The state of one PychessGame object: the object store for the single
chess.Board allocated in __init__ (heap, addressed by state_ref, which is
the reference self._state holds and never rebinds), together with the
fields of the information dictionary built by _init_info.  The winner key
is absent until is_terminal first stores it, hence an Option. -/
structure GameState (B : Type) where
  heap : List B
  state_ref : Nat
  ai : Option Unit
  fen : String
  turn : Bool
  white : String
  black : String
  players : Nat
  time_prev_move : ℚ
  time_start : ℚ
  time_increment : ℚ
  time_white : ℚ
  time_black : ℚ
  time_format : String
  state_history : List Nat
  move_history : List chess.Move
  winner : Option String
deriving DecidableEq

/-- Dereference self._state: the board object the game's reference points
at in the store. -/
def get_board [Inhabited B] (g : GameState B) : B :=
  g.heap.getD g.state_ref default

/-- Model of PychessGame._create_time_format: divmod of the total time by 60
rendered as "min:sec +increment". -/
def create_time_format (t_total t_incr : ℚ) : String :=
  toString (⌊t_total / 60⌋ : ℤ) ++ ":" ++ toString (t_total - 60 * (⌊t_total / 60⌋ : ℤ)) ++ " +" ++ toString t_incr

/-- Model of PychessGame.__init__ together with _init_info: allocates the single
board object and fills the information dictionary.  t and incr are the
values kwargs.get resolves for the keys time and increment (defaulting to
DEFAULT_TIME = 300 and DEFAULT_INCREMENT = 5), and now is the
time.time() value read for time-prev-move. -/
def init_info (R : RulesEngine B) (board : B) (players : Nat) (white black : String)
    (t incr : ℚ) (now : ℚ) : GameState B :=
  { heap := [board]
    state_ref := 0
    ai := none
    fen := R.fen board
    turn := R.turn board
    white := white
    black := black
    players := players
    time_prev_move := now
    time_start := t
    time_increment := incr
    time_white := t
    time_black := t
    time_format := create_time_format t incr
    state_history := [0]
    move_history := []
    winner := none }

/-- Model of PychessGame._update_info, called after self._state.push(move): the
FEN and turn keys are refreshed from the (already pushed) board, the
mover's clock is set to math.ceil of time-start minus the time elapsed
since time-prev-move plus time-increment while the opponent's clock is
math.ceil of its old value (the turn key read on lines 120-121 is the
value just written on line 119, i.e. the side to move after the push),
and the references self._state and the move are appended to the two
histories.  time-prev-move is not modified.  now is the time.time()
value read by the one conditional branch that evaluates it. -/
def update_info [Inhabited B] (R : RulesEngine B) (now : ℚ) (move : chess.Move)
    (g : GameState B) : GameState B :=
  { g with
    fen := R.fen (get_board g)
    turn := R.turn (get_board g)
    time_white :=
      if !(R.turn (get_board g)) then
        ((⌈g.time_start - (now - g.time_prev_move) + g.time_increment⌉ : ℤ) : ℚ)
      else ((⌈g.time_white⌉ : ℤ) : ℚ)
    time_black :=
      if R.turn (get_board g) then
        ((⌈g.time_start - (now - g.time_prev_move) + g.time_increment⌉ : ℤ) : ℚ)
      else ((⌈g.time_black⌉ : ℤ) : ℚ)
    state_history := g.state_history ++ [g.state_ref]
    move_history := g.move_history ++ [move] }

/-- Model of PychessGame._push_move: if the move is in the legal-move list of the
current board, the board object is mutated in place by push (the store
cell is overwritten) and _update_info runs on the new board; otherwise
nothing changes and False is returned. -/
def push_move [Inhabited B] (R : RulesEngine B) (now : ℚ) (move : chess.Move)
    (g : GameState B) : Bool × GameState B :=
  if move ∈ R.legal_moves (get_board g) then
    (true, update_info R now move { g with heap := g.heap.set g.state_ref (R.push (get_board g) move) })
  else
    (false, g)

/-- The observable result of one PychessGame.make_move call: ok when the
function returned True, rejected (with the message _eprint emitted at
that return site) when it returned False, and exn when an exception
escaped the function (chess.Move.from_uci raising InvalidMoveError is
uncaught in make_move). -/
inductive MoveOutcome (B : Type) where
  | ok (g : GameState B)
  | rejected (msg : String) (g : GameState B)
  | exn (msg : String)
deriving DecidableEq

/-- The character blacklist literal of make_move line 260: a move string
containing any of these characters is rejected as faulty input.  Written
with escapes for the quote, apostrophe, backtick, backslash and braces it
contains. -/
def faulty_chars : String :=
  "ABCDEFGHIJKLMNOPQRSTUVWXYZÅÄÖijklmnopqrstuvwxyzåäö90/,;.:-_\x27*¨^~\x60´\\?+=\x7d)](\x5b/\x7b&%€¤$#£\x22@!§½"

/-- Model of PychessGame.make_move on a raw textual move (the str branch): inputs
whose length is not 4 are rejected as faulty, then inputs containing a
blacklisted character are rejected as faulty, then the text is parsed by
chess.Move.from_uci (whose InvalidMoveError is not caught) and handed to
_push_move, whose False return is reported as an illegal move. -/
def make_move [Inhabited B] (R : RulesEngine B) (now : ℚ) (move : String)
    (g : GameState B) : MoveOutcome B :=
  if move.length ≠ 4 then .rejected "got faulty move input from user" g
  else if move.toList.any (fun c => faulty_chars.contains c) then
    .rejected "got faulty move input from user" g
  else
    match chess.from_uci move with
    | none => .exn "InvalidMoveError"
    | some m =>
      match push_move R now m g with
      | (true, g1) => .ok g1
      | (false, g1) => .rejected "got illegal move from user" g1

/-- Model of PychessGame.make_move on an already constructed chess.Move (the
branch taken when type(move) == chess.Move): a direct _push_move. -/
def make_move_validated [Inhabited B] (R : RulesEngine B) (now : ℚ) (move : chess.Move)
    (g : GameState B) : Bool × GameState B :=
  push_move R now move g

/-- Model of PychessGame.start_clock: overwrites time-prev-move with the current
time.time() value. -/
def start_clock (now : ℚ) (g : GameState B) : GameState B :=
  { g with time_prev_move := now }

/-- The dictionary literal resdict of is_terminal line 289; looking up a
missing key raises KeyError, modelled as none. -/
def resdict (s : String) : Option String :=
  if s = "1-0" then some "white wins!"
  else if s = "0-1" then some "black wins!"
  else if s = "1/2-1/2" then some "draw!"
  else none

/-- The observable result of one PychessGame.is_terminal call: the
returned boolean, the _wprint message of the branch taken (the code's
only record of the cause), the state afterwards (is_terminal writes the
winner key), or an escaped exception. -/
inductive TermResult (B : Type) where
  | ok (terminal : Bool) (msg : Option String) (g : GameState B)
  | exn (msg : String)
deriving DecidableEq

/-- Model of PychessGame.is_terminal: white's clock is checked first, then
black's (each flag fall stores the winner and returns True before
self._state.outcome() is ever consulted); only then is the board's own
classification read, None meaning not terminal and anything else being
translated through resdict into the stored winner string. -/
def is_terminal [Inhabited B] (R : RulesEngine B) (g : GameState B) : TermResult B :=
  if g.time_white ≤ 0 then
    .ok true (some "game is terminal, black won on time") { g with winner := some "black wins!" }
  else if g.time_black ≤ 0 then
    .ok true (some "game is terminal, white won on time") { g with winner := some "white wins!" }
  else
    match R.outcome (get_board g) with
    | none => .ok false none g
    | some oc =>
      match resdict oc.result with
      | some w => .ok true (some "game is terminal, either checkmate or draw/stalemate") { g with winner := some w }
      | none => .exn "KeyError"

/-- Model of PychessGame.get_prev_move: the last element of move-history, or the
empty-string sentinel when no move has been made (the code returns "" in
that case; the sum type keeps the two result kinds apart). -/
def get_prev_move (g : GameState B) : Option chess.Move :=
  if g.move_history.length < 1 then none
  else g.move_history.getLast?

/-- The position-history the spec speaks about: the value each stored
state-history entry denotes, obtained by dereferencing the stored
reference against the object store. -/
def position_history [Inhabited B] (g : GameState B) : List B :=
  g.state_history.map (fun r => g.heap.getD r default)

/-- A driver for a whole session: each element of the list is one
submit-move call, a time.time() reading paired with the raw text the
player typed.  Returns the final state and the number of calls that
returned True; an escaped exception aborts the process, so nothing after
it runs. -/
def run_moves [Inhabited B] (R : RulesEngine B) :
    List (ℚ × String) → GameState B → GameState B × Nat
  | [], g => (g, 0)
  | (t, s) :: rest, g =>
    match make_move R t s g with
    | .ok g1 => let p := run_moves R rest g1; (p.1, p.2 + 1)
    | .rejected _ g1 => run_moves R rest g1
    | .exn _ => (g, 0)

/-- The move e2e4 as chess.Move.from_uci builds it. -/
def mv_e2e4 : chess.Move := ⟨12, 28, none, none⟩

/-- The move e7e5 as chess.Move.from_uci builds it. -/
def mv_e7e5 : chess.Move := ⟨52, 36, none, none⟩

/-- The move g1f3 as chess.Move.from_uci builds it. -/
def mv_g1f3 : chess.Move := ⟨6, 21, none, none⟩

/-- A concrete scripted rules engine for witnesses and counterexamples,
in the stub style the spec itself suggests for testing: the board is a
ply counter, exactly one scripted move is legal at each of the first
three plies and none afterwards, white moves on even plies, and the
classification stays ongoing. -/
def demoRules : RulesEngine Nat :=
  { legal_moves := fun b =>
      if b = 0 then [mv_e2e4] else if b = 1 then [mv_e7e5] else if b = 2 then [mv_g1f3] else []
    push := fun b _ => b + 1
    turn := fun b => b % 2 == 0
    fen := fun b => toString b
    outcome := fun _ => none }

/-- A session over the stub engine created at time 0 with the repo's
default clock configuration (DEFAULT_TIME = 300, DEFAULT_INCREMENT = 5). -/
def demo_g0 : GameState Nat :=
  init_info demoRules 0 2 "white" "black" 300 5 0

/-- The session after white plays e2e4 at time 10. -/
def demo_g1 : GameState Nat := (push_move demoRules 10 mv_e2e4 demo_g0).2

/-- The session after black answers e7e5 at time 20. -/
def demo_g2 : GameState Nat := (push_move demoRules 20 mv_e7e5 demo_g1).2

/-- The session after white plays g1f3 at time 30. -/
def demo_g3 : GameState Nat := (push_move demoRules 30 mv_g1f3 demo_g2).2

/-- A run in which white's flag falls: the first move is made only
at time 310, so _update_info leaves white with ceil(300 - 310 + 5) = -5
seconds. -/
def flag_g1 : GameState Nat := (push_move demoRules 310 mv_e2e4 demo_g0).2

/-- The state is_terminal stores when it sees flag_g1: black wins on
time. -/
def flag_t1 : GameState Nat := { flag_g1 with winner := some "black wins!" }

/-- Continuing that run: the clock is restarted at time 311 (start_clock
is public and nothing stops a caller from invoking it again), black
answers at 312 and white replies at 313. -/
def flag_g2 : GameState Nat := (push_move demoRules 312 mv_e7e5 (start_clock 311 flag_t1)).2

/-- The final state of that run, with both clocks positive again. -/
def flag_g3 : GameState Nat := (push_move demoRules 313 mv_g1f3 flag_g2).2

/-- Classification of every make_move call on a raw string: it is
rejected as faulty input (wrong length or a blacklisted character), or
the UCI parse raises, or the parsed move is illegal and is rejected with
the state untouched, or the move is legal and the state advances through
push plus _update_info. -/
theorem make_move_spec [Inhabited B] (R : RulesEngine B) (now : ℚ) (s : String)
    (g : GameState B) :
    make_move R now s g = .rejected "got faulty move input from user" g
    ∨ make_move R now s g = .exn "InvalidMoveError"
    ∨ (∃ m, chess.from_uci s = some m ∧ m ∉ R.legal_moves (get_board g) ∧
        make_move R now s g = .rejected "got illegal move from user" g)
    ∨ (∃ m, chess.from_uci s = some m ∧ m ∈ R.legal_moves (get_board g) ∧
        make_move R now s g = .ok (update_info R now m
          { g with heap := g.heap.set g.state_ref (R.push (get_board g) m) })) := by
  unfold make_move
  by_cases hlen : s.length ≠ 4
  · rw [if_pos hlen]
    exact Or.inl rfl
  · rw [if_neg hlen]
    by_cases hch : (s.toList.any (fun c => faulty_chars.contains c)) = true
    · rw [if_pos hch]
      exact Or.inl rfl
    · rw [if_neg hch]
      rcases hfu : chess.from_uci s with _ | m
      · exact Or.inr (Or.inl rfl)
      · by_cases hm : m ∈ R.legal_moves (get_board g)
        · refine Or.inr (Or.inr (Or.inr ⟨m, rfl, hm, ?_⟩))
          have hp : push_move R now m g = (true, update_info R now m
              { g with heap := g.heap.set g.state_ref (R.push (get_board g) m) }) := by
            rw [push_move, if_pos hm]
          show (match push_move R now m g with
                | (true, g1) => MoveOutcome.ok g1
                | (false, g1) => MoveOutcome.rejected "got illegal move from user" g1) = _
          rw [hp]
        · refine Or.inr (Or.inr (Or.inl ⟨m, rfl, hm, ?_⟩))
          have hp : push_move R now m g = (false, g) := by
            rw [push_move, if_neg hm]
          show (match push_move R now m g with
                | (true, g1) => MoveOutcome.ok g1
                | (false, g1) => MoveOutcome.rejected "got illegal move from user" g1) = _
          rw [hp]

/-- A successful make_move call comes from a UCI-parsed legal move and
produces exactly the pushed-and-updated state. -/
theorem make_move_ok_elim [Inhabited B] {R : RulesEngine B} {now : ℚ} {s : String}
    {g g1 : GameState B} (h : make_move R now s g = .ok g1) :
    ∃ m, chess.from_uci s = some m ∧ m ∈ R.legal_moves (get_board g) ∧
      g1 = update_info R now m { g with heap := g.heap.set g.state_ref (R.push (get_board g) m) } := by
  rcases make_move_spec R now s g with h1 | h1 | ⟨m, _, _, h1⟩ | ⟨m, hfu, hm, h1⟩ <;>
    rw [h1] at h
  · exact absurd h (by simp)
  · exact absurd h (by simp)
  · exact absurd h (by simp)
  · exact ⟨m, hfu, hm, by injection h with h2; exact h2.symm⟩

/-- Behavior of is_terminal when white's clock has expired: the first branch fires. -/
theorem is_terminal_white_flag [Inhabited B] (R : RulesEngine B) (g : GameState B)
    (hw : g.time_white ≤ 0) :
    is_terminal R g = .ok true (some "game is terminal, black won on time")
      { g with winner := some "black wins!" } := by
  unfold is_terminal
  rw [if_pos hw]

/-- Behavior of is_terminal when white's clock is alive but black's has expired. -/
theorem is_terminal_black_flag [Inhabited B] (R : RulesEngine B) (g : GameState B)
    (hw : ¬g.time_white ≤ 0) (hb : g.time_black ≤ 0) :
    is_terminal R g = .ok true (some "game is terminal, white won on time")
      { g with winner := some "white wins!" } := by
  unfold is_terminal
  rw [if_neg hw, if_pos hb]

/-- Behavior of is_terminal when both clocks are alive and the board classification
is still ongoing. -/
theorem is_terminal_ongoing [Inhabited B] (R : RulesEngine B) (g : GameState B)
    (hw : ¬g.time_white ≤ 0) (hb : ¬g.time_black ≤ 0)
    (ho : R.outcome (get_board g) = none) :
    is_terminal R g = .ok false none g := by
  unfold is_terminal
  rw [if_neg hw, if_neg hb, ho]

/-- Behavior of is_terminal when both clocks are alive and the board reports an
outcome whose result string resdict translates. -/
theorem is_terminal_rules [Inhabited B] (R : RulesEngine B) (g : GameState B)
    (hw : ¬g.time_white ≤ 0) (hb : ¬g.time_black ≤ 0) (oc : chess.Outcome) (w : String)
    (ho : R.outcome (get_board g) = some oc) (hr : resdict oc.result = some w) :
    is_terminal R g = .ok true (some "game is terminal, either checkmate or draw/stalemate")
      { g with winner := some w } := by
  unfold is_terminal
  rw [if_neg hw, if_neg hb, ho]
  show (match resdict oc.result with
        | some w => TermResult.ok true (some "game is terminal, either checkmate or draw/stalemate")
            { g with winner := some w }
        | none => TermResult.exn "KeyError") = _
  rw [hr]

/-- Every chess.Outcome result string is a key of resdict, so the
KeyError branch of is_terminal is unreachable. -/
theorem resdict_total (oc : chess.Outcome) : ∃ w, resdict oc.result = some w := by
  rcases oc with ⟨_ | w⟩
  · exact ⟨"draw!", rfl⟩
  · rcases w with _ | _
    · exact ⟨"black wins!", rfl⟩
    · exact ⟨"white wins!", rfl⟩

/-- C4: whenever some side's clock shows ≤ 0 seconds, is_terminal returns
true with the opponent of a flagged side recorded as the winner and the
on-time message as the cause, and the decision is taken before the rules
engine is consulted: the rules engine R is universally quantified here, so
the result is the same whatever legal moves or classification R would
report for the current position (in particular when the position still
has legal moves and is not checkmate). -/
theorem C4_time_forfeit [Inhabited B] (R : RulesEngine B) (g : GameState B)
    (h : g.time_white ≤ 0 ∨ g.time_black ≤ 0) :
    (g.time_white ≤ 0
      ∧ is_terminal R g = .ok true (some "game is terminal, black won on time")
          { g with winner := some "black wins!" })
    ∨ (¬g.time_white ≤ 0 ∧ g.time_black ≤ 0
      ∧ is_terminal R g = .ok true (some "game is terminal, white won on time")
          { g with winner := some "white wins!" }) := by
  by_cases hw : g.time_white ≤ 0
  · exact Or.inl ⟨hw, is_terminal_white_flag R g hw⟩
  · rcases h with h | hb
    · exact absurd h hw
    · exact Or.inr ⟨hw, hb, is_terminal_black_flag R g hw hb⟩

/-- C4 witness: in the concrete run where white's clock reached -5, the
stub engine still offers a legal move and reports no outcome, yet
is_terminal declares black the winner on time. -/
theorem C4_time_forfeit_witness :
    (flag_g1.time_white ≤ 0 ∨ flag_g1.time_black ≤ 0)
    ∧ demoRules.legal_moves (get_board flag_g1) = [mv_e7e5]
    ∧ demoRules.outcome (get_board flag_g1) = none
    ∧ ((flag_g1.time_white ≤ 0
        ∧ is_terminal demoRules flag_g1 = .ok true (some "game is terminal, black won on time")
            { flag_g1 with winner := some "black wins!" })
      ∨ (¬flag_g1.time_white ≤ 0 ∧ flag_g1.time_black ≤ 0
        ∧ is_terminal demoRules flag_g1 = .ok true (some "game is terminal, white won on time")
            { flag_g1 with winner := some "white wins!" })) :=
  ⟨Or.inl (by with_unfolding_all decide), by with_unfolding_all decide,
   by with_unfolding_all decide,
   C4_time_forfeit demoRules flag_g1 (Or.inl (by with_unfolding_all decide))⟩

/-- C10: when both clocks show ≤ 0 simultaneously, black is declared the
winner, because white's clock is tested first in is_terminal; the rules
engine is never consulted. -/
theorem C10_double_flag [Inhabited B] (R : RulesEngine B) (g : GameState B)
    (hw : g.time_white ≤ 0) (hb : g.time_black ≤ 0) :
    is_terminal R g = .ok true (some "game is terminal, black won on time")
      { g with winner := some "black wins!" } :=
  is_terminal_white_flag R g hw

/-- C10 witness: a session with both clocks at exactly 0 is declared won
by black. -/
theorem C10_double_flag_witness :
    ({ demo_g0 with time_white := 0, time_black := 0 } : GameState Nat).time_white ≤ 0
    ∧ ({ demo_g0 with time_white := 0, time_black := 0 } : GameState Nat).time_black ≤ 0
    ∧ is_terminal demoRules { demo_g0 with time_white := 0, time_black := 0 }
        = .ok true (some "game is terminal, black won on time")
          { demo_g0 with time_white := 0, time_black := 0, winner := some "black wins!" } :=
  ⟨by with_unfolding_all decide, by with_unfolding_all decide,
   C10_double_flag demoRules { demo_g0 with time_white := 0, time_black := 0 }
     (by with_unfolding_all decide) (by with_unfolding_all decide)⟩

/-- C5 counterexample: the outcome is not immutable and a later
is_terminal call does not have to return true.  After white flags, the
first is_terminal call stores black as the winner; but make_move has no
terminal guard and start_clock is public, so the game continues, both
clocks recover to positive values, and a later is_terminal call on the
very same session returns false, re-deriving everything. -/
theorem C5_counterexample :
    is_terminal demoRules flag_g1
        = .ok true (some "game is terminal, black won on time") flag_t1
    ∧ make_move demoRules 312 "e7e5" (start_clock 311 flag_t1) = .ok flag_g2
    ∧ make_move demoRules 313 "g1f3" flag_g2 = .ok flag_g3
    ∧ is_terminal demoRules flag_g3 = .ok false none flag_g3 := by
  refine ⟨?_, ?_, ?_, ?_⟩ <;> with_unfolding_all decide

/-- C5 amended: is_terminal caches nothing and re-derives its answer on
every call; what does hold is that an immediately repeated call on the
state a true-returning call produced returns true again with the same
message and the same stored winner.  Interleaved start_clock or
make_move calls can break this, as the counterexample run shows. -/
theorem C5_amended [Inhabited B] (R : RulesEngine B) (g g1 : GameState B)
    (msg : Option String) (h : is_terminal R g = .ok true msg g1) :
    is_terminal R g1 = .ok true msg g1 := by
  by_cases hw : g.time_white ≤ 0
  · rw [is_terminal_white_flag R g hw] at h
    injection h with h1 h2 h3
    subst h2
    subst h3
    exact is_terminal_white_flag R _ hw
  · by_cases hb : g.time_black ≤ 0
    · rw [is_terminal_black_flag R g hw hb] at h
      injection h with h1 h2 h3
      subst h2
      subst h3
      exact is_terminal_black_flag R _ hw hb
    · rcases ho : R.outcome (get_board g) with _ | oc
      · rw [is_terminal_ongoing R g hw hb ho] at h
        injection h with h1 h2 h3
        exact absurd h1 (by simp)
      · rcases resdict_total oc with ⟨w, hr⟩
        rw [is_terminal_rules R g hw hb oc w ho hr] at h
        injection h with h1 h2 h3
        subst h2
        subst h3
        exact is_terminal_rules R { g with winner := some w } hw hb oc w ho hr

/-- C5 amended witness: re-running is_terminal immediately on the stored
state of the first terminal call reproduces the same answer. -/
theorem C5_amended_witness :
    is_terminal demoRules flag_g1
        = .ok true (some "game is terminal, black won on time") flag_t1
    ∧ is_terminal demoRules flag_t1
        = .ok true (some "game is terminal, black won on time") flag_t1 :=
  ⟨by with_unfolding_all decide,
   C5_amended demoRules flag_g1 flag_t1 (some "game is terminal, black won on time")
     (by with_unfolding_all decide)⟩

/-- C1 counterexample: the mover's clock is not computed from its
previous remaining time.  In a run with starting time 300 and increment
5, white moves at 10 (clock 295 — here the claim's example does hold),
black moves at 20 and white again at 30.  The code leaves white at
ceil(300 - (30 - 0) + 5) = 275, which differs both from
previous-remaining - elapsed-since-the-last-move + increment
(295 - 10 + 5 = 290) and from previous-remaining - elapsed-since-the-
stored-timestamp + increment (295 - 30 + 5 = 270); black's first move
already lands on 285 instead of 300 - 10 + 5 = 295. -/
theorem C1_counterexample :
    make_move demoRules 10 "e2e4" demo_g0 = .ok demo_g1
    ∧ make_move demoRules 20 "e7e5" demo_g1 = .ok demo_g2
    ∧ make_move demoRules 30 "g1f3" demo_g2 = .ok demo_g3
    ∧ demo_g0.time_start = 300 ∧ demo_g0.time_increment = 5
    ∧ demo_g1.time_white = 295
    ∧ demo_g1.time_black = 300
    ∧ demo_g2.time_black = 285
    ∧ demo_g2.time_black ≠ demo_g1.time_black - (20 - 10) + 5
    ∧ demo_g3.time_white = 275
    ∧ demo_g3.time_white ≠ demo_g1.time_white - (30 - 20) + 5
    ∧ demo_g3.time_white ≠ demo_g1.time_white - (30 - demo_g2.time_prev_move) + 5 := by
  refine ⟨?_, ?_, ?_, ?_, ?_, ?_, ?_, ?_, ?_, ?_, ?_, ?_⟩ <;> with_unfolding_all decide

/-- C1 amended: on every successful move submission the mover's clock is
set to the integer ceiling of starting_seconds minus the wall time
elapsed since the stored time-prev-move timestamp plus the increment
(the starting budget, not the mover's previous remaining time), and the
opponent's clock is merely passed through math.ceil; the side charged is
the mover, i.e. the opposite of the turn after the move. -/
theorem C1_amended [Inhabited B] (R : RulesEngine B) (now : ℚ) (s : String)
    (g g1 : GameState B) (h : make_move R now s g = .ok g1) :
    (g1.turn = false →
      g1.time_white = ((⌈g.time_start - (now - g.time_prev_move) + g.time_increment⌉ : ℤ) : ℚ)
      ∧ g1.time_black = ((⌈g.time_black⌉ : ℤ) : ℚ))
    ∧ (g1.turn = true →
      g1.time_black = ((⌈g.time_start - (now - g.time_prev_move) + g.time_increment⌉ : ℤ) : ℚ)
      ∧ g1.time_white = ((⌈g.time_white⌉ : ℤ) : ℚ)) := by
  rcases make_move_ok_elim h with ⟨m, hfu, hm, hg1⟩
  subst hg1
  constructor
  · intro ht
    simp only [update_info] at ht ⊢
    rw [ht]
    simp
  · intro ht
    simp only [update_info] at ht ⊢
    rw [ht]
    simp

/-- C1 amended witness: white's first move at time 10 instantiates the
amended clock formulas. -/
theorem C1_amended_witness :
    make_move demoRules 10 "e2e4" demo_g0 = .ok demo_g1
    ∧ ((demo_g1.turn = false →
        demo_g1.time_white
            = ((⌈demo_g0.time_start - (10 - demo_g0.time_prev_move) + demo_g0.time_increment⌉ : ℤ) : ℚ)
        ∧ demo_g1.time_black = ((⌈demo_g0.time_black⌉ : ℤ) : ℚ))
      ∧ (demo_g1.turn = true →
        demo_g1.time_black
            = ((⌈demo_g0.time_start - (10 - demo_g0.time_prev_move) + demo_g0.time_increment⌉ : ℤ) : ℚ)
        ∧ demo_g1.time_white = ((⌈demo_g0.time_white⌉ : ℤ) : ℚ))) :=
  ⟨by with_unfolding_all decide,
   C1_amended demoRules 10 "e2e4" demo_g0 demo_g1 (by with_unfolding_all decide)⟩

/-- C2 counterexample: a successful move does not reset the
time-prev-move timestamp.  The session is created at time 0 and white
moves at time 10, yet time-prev-move still reads 0 afterwards. -/
theorem C2_counterexample :
    make_move demoRules 10 "e2e4" demo_g0 = .ok demo_g1
    ∧ demo_g0.time_prev_move = 0
    ∧ demo_g1.time_prev_move = 0
    ∧ demo_g1.time_prev_move ≠ 10 := by
  refine ⟨?_, ?_, ?_, ?_⟩ <;> with_unfolding_all decide

/-- C2 amended: time-prev-move is written only at session creation and by
start_clock; _update_info never touches it, so every move's elapsed time
is measured from the last start_clock call (or from creation), not from
the end of the previous move. -/
theorem C2_amended [Inhabited B] (R : RulesEngine B) (now : ℚ) (s : String)
    (g g1 : GameState B) (h : make_move R now s g = .ok g1) :
    g1.time_prev_move = g.time_prev_move
    ∧ (∀ (t : ℚ) (g2 : GameState B), (start_clock t g2).time_prev_move = t)
    ∧ (∀ (board : B) (players : Nat) (w bl : String) (ti incr t0 : ℚ),
        (init_info R board players w bl ti incr t0).time_prev_move = t0) := by
  rcases make_move_ok_elim h with ⟨m, hfu, hm, hg1⟩
  subst hg1
  exact ⟨rfl, fun t g2 => rfl, fun board players w bl ti incr t0 => rfl⟩

/-- C2 amended witness: after white's move at time 10 the timestamp still
holds its creation value, and start_clock is what updates it. -/
theorem C2_amended_witness :
    make_move demoRules 10 "e2e4" demo_g0 = .ok demo_g1
    ∧ demo_g1.time_prev_move = demo_g0.time_prev_move
    ∧ (start_clock 311 flag_t1).time_prev_move = 311
    ∧ (init_info demoRules 0 2 "white" "black" 300 5 0).time_prev_move = 0 :=
  ⟨by with_unfolding_all decide,
   (C2_amended demoRules 10 "e2e4" demo_g0 demo_g1 (by with_unfolding_all decide)).1,
   (C2_amended demoRules 10 "e2e4" demo_g0 demo_g1 (by with_unfolding_all decide)).2.1 311 flag_t1,
   (C2_amended demoRules 10 "e2e4" demo_g0 demo_g1 (by with_unfolding_all decide)).2.2 0 2 "white" "black" 300 5 0⟩

/-- C3 counterexample: a terminal session still accepts moves.  After
white's flag falls, is_terminal returns true and stores black as the
winner, yet the next textual submission of the legal reply succeeds and
lengthens both histories — make_move contains no terminal check at all,
so nothing resembling TerminalSessionError exists on this path. -/
theorem C3_counterexample :
    is_terminal demoRules flag_g1
        = .ok true (some "game is terminal, black won on time") flag_t1
    ∧ make_move demoRules 311 "e7e5" flag_t1
        = .ok ((push_move demoRules 311 mv_e7e5 flag_t1).2)
    ∧ ((push_move demoRules 311 mv_e7e5 flag_t1).2).move_history.length
        = flag_t1.move_history.length + 1
    ∧ ((push_move demoRules 311 mv_e7e5 flag_t1).2).state_history.length
        = flag_t1.state_history.length + 1 := by
  refine ⟨?_, ?_, ?_, ?_⟩ <;> with_unfolding_all decide

/-- C3 amended: make_move never consults is_terminal; the only sessions
on which every submission fails are those whose position has an empty
legal-move list (rules-terminal positions), and there each submission is
rejected as faulty or illegal input with the state untouched, or aborts
in the UCI parser — while a session that is terminal only through a flag
fall keeps accepting legal moves, as the counterexample shows. -/
theorem C3_amended [Inhabited B] (R : RulesEngine B) (g : GameState B)
    (h : R.legal_moves (get_board g) = []) (now : ℚ) (s : String) :
    make_move R now s g = .rejected "got faulty move input from user" g
    ∨ make_move R now s g = .rejected "got illegal move from user" g
    ∨ make_move R now s g = .exn "InvalidMoveError" := by
  rcases make_move_spec R now s g with h1 | h1 | ⟨m, _, _, h1⟩ | ⟨m, _, hm, _⟩
  · exact Or.inl h1
  · exact Or.inr (Or.inr h1)
  · exact Or.inr (Or.inl h1)
  · rw [h] at hm
    exact absurd hm (List.not_mem_nil m)

/-- C3 amended witness: the stub position after three plies has no legal
moves, and a submission there is rejected as an illegal move with the
state unchanged. -/
theorem C3_amended_witness :
    demoRules.legal_moves (get_board demo_g3) = []
    ∧ (make_move demoRules 999 "e2e4" demo_g3
          = .rejected "got faulty move input from user" demo_g3
      ∨ make_move demoRules 999 "e2e4" demo_g3
          = .rejected "got illegal move from user" demo_g3
      ∨ make_move demoRules 999 "e2e4" demo_g3 = .exn "InvalidMoveError") :=
  ⟨by with_unfolding_all decide,
   C3_amended demoRules demo_g3 (by with_unfolding_all decide) 999 "e2e4"⟩

/-- C6: the claim's own examples behave as stated ("e2e4x" and "zz99"
are rejected as faulty input with the state untouched), but the
character filter is a blacklist that omits characters such as the space,
the angle brackets and the vertical bar.  The 4-character input "e2<4"
contains a character outside the file/rank alphabet, passes the
blacklist, and chess.Move.from_uci then raises InvalidMoveError, which
make_move does not catch — the submission crashes instead of failing
fast with a MalformedMoveError-style rejection, contradicting
make_move's own contract of returning a boolean for faulty input. -/
theorem C6_code_bug :
    "e2<4".length = 4
    ∧ ("e2<4".toList.any fun c => !(('a' ≤ c && c ≤ 'h') || ('1' ≤ c && c ≤ '8'))) = true
    ∧ make_move demoRules 0 "e2<4" demo_g0 = .exn "InvalidMoveError"
    ∧ make_move demoRules 0 "e2e4x" demo_g0
        = .rejected "got faulty move input from user" demo_g0
    ∧ make_move demoRules 0 "zz99" demo_g0
        = .rejected "got faulty move input from user" demo_g0 := by
  refine ⟨?_, ?_, ?_, ?_, ?_⟩ <;> with_unfolding_all decide

/-- C7: a well-formed 4-character submission that parses to a move
outside the engine's legal-move set is rejected as an illegal move and
the returned state is the submitted state itself (board, histories,
clocks and turn all untouched); the same submission with the move inside
the legal set succeeds and lengthens both histories by one. -/
theorem C7_illegal_all_or_nothing [Inhabited B] (R : RulesEngine B) (now : ℚ)
    (s : String) (g : GameState B) (m : chess.Move)
    (hlen : s.length = 4)
    (hch : (s.toList.any fun c => faulty_chars.contains c) = false)
    (hres : chess.from_uci s = some m) :
    (m ∉ R.legal_moves (get_board g) →
      make_move R now s g = .rejected "got illegal move from user" g)
    ∧ (m ∈ R.legal_moves (get_board g) →
      ∃ g1, make_move R now s g = .ok g1
        ∧ g1.move_history.length = g.move_history.length + 1
        ∧ g1.state_history.length = g.state_history.length + 1) := by
  have hstep : make_move R now s g =
      (match push_move R now m g with
        | (true, g1) => MoveOutcome.ok g1
        | (false, g1) => MoveOutcome.rejected "got illegal move from user" g1) := by
    unfold make_move
    rw [if_neg (by rw [hlen]; exact fun hcon => hcon rfl), if_neg (by rw [hch]; simp)]
    rw [hres]
  constructor
  · intro hm
    have hp : push_move R now m g = (false, g) := by rw [push_move, if_neg hm]
    rw [hstep, hp]
  · intro hm
    have hp : push_move R now m g = (true, update_info R now m
        { g with heap := g.heap.set g.state_ref (R.push (get_board g) m) }) := by
      rw [push_move, if_pos hm]
    refine ⟨_, by rw [hstep, hp], ?_, ?_⟩ <;> simp [update_info]

/-- C7 witness: from the starting stub position, "a3b6" parses but is
not legal and is rejected with the state unchanged, while "e2e4" is
legal and advances the history length from 0 to 1. -/
theorem C7_witness :
    demo_g0.move_history.length = 0
    ∧ make_move demoRules 0 "a3b6" demo_g0 = .rejected "got illegal move from user" demo_g0
    ∧ (∃ g1, make_move demoRules 10 "e2e4" demo_g0 = .ok g1
        ∧ g1.move_history.length = demo_g0.move_history.length + 1
        ∧ g1.state_history.length = demo_g0.state_history.length + 1) :=
  ⟨by with_unfolding_all decide,
   (C7_illegal_all_or_nothing demoRules 0 "a3b6" demo_g0 ⟨16, 41, none, none⟩
      (by with_unfolding_all decide) (by with_unfolding_all decide)
      (by with_unfolding_all decide)).1 (by with_unfolding_all decide),
   (C7_illegal_all_or_nothing demoRules 10 "e2e4" demo_g0 mv_e2e4
      (by with_unfolding_all decide) (by with_unfolding_all decide)
      (by with_unfolding_all decide)).2 (by with_unfolding_all decide)⟩

/-- Across any driver run, both history lengths grow by exactly the
number of successful make_move calls. -/
theorem run_moves_lengths [Inhabited B] (R : RulesEngine B) (subs : List (ℚ × String)) :
    ∀ g : GameState B,
      ((run_moves R subs g).1).move_history.length
          = g.move_history.length + (run_moves R subs g).2
      ∧ ((run_moves R subs g).1).state_history.length
          = g.state_history.length + (run_moves R subs g).2 := by
  induction subs with
  | nil =>
    intro g
    exact ⟨rfl, rfl⟩
  | cons p rest ih =>
    intro g
    obtain ⟨t, s⟩ := p
    rcases make_move_spec R t s g with h1 | h1 | ⟨m, hfu, hm, h1⟩ | ⟨m, hfu, hm, h1⟩
    · simp only [run_moves, h1]
      exact ih g
    · simp only [run_moves, h1]
      exact ⟨rfl, rfl⟩
    · simp only [run_moves, h1]
      exact ih g
    · obtain ⟨h21, h22⟩ := ih (update_info R t m
        { g with heap := g.heap.set g.state_ref (R.push (get_board g) m) })
      have hm1 : (update_info R t m
          { g with heap := g.heap.set g.state_ref (R.push (get_board g) m) }).move_history.length
            = g.move_history.length + 1 := by
        simp [update_info]
      have hs1 : (update_info R t m
          { g with heap := g.heap.set g.state_ref (R.push (get_board g) m) }).state_history.length
            = g.state_history.length + 1 := by
        simp [update_info]
      simp only [run_moves, h1]
      constructor <;> omega

/-- C8: for every initial configuration and every sequence of raw
submissions, the state history stays exactly one element longer than the
move history, and the move-history length equals the number of
submissions that succeeded. -/
theorem C8_history_lengths [Inhabited B] (R : RulesEngine B) (board : B) (players : Nat)
    (w bl : String) (t incr now : ℚ) (subs : List (ℚ × String)) :
    ((run_moves R subs (init_info R board players w bl t incr now)).1).state_history.length
        = ((run_moves R subs (init_info R board players w bl t incr now)).1).move_history.length + 1
    ∧ ((run_moves R subs (init_info R board players w bl t incr now)).1).move_history.length
        = (run_moves R subs (init_info R board players w bl t incr now)).2 := by
  obtain ⟨h1, h2⟩ := run_moves_lengths R subs (init_info R board players w bl t incr now)
  have hm0 : (init_info R board players w bl t incr now).move_history.length = 0 := rfl
  have hs0 : (init_info R board players w bl t incr now).state_history.length = 1 := rfl
  constructor <;> omega

/-- Every reference a run ever appends to state-history is the session's
single board reference, which no operation changes. -/
theorem run_moves_refs [Inhabited B] (R : RulesEngine B) (subs : List (ℚ × String)) :
    ∀ g : GameState B, (∀ r ∈ g.state_history, r = g.state_ref) →
      (run_moves R subs g).1.state_ref = g.state_ref
      ∧ ∀ r ∈ (run_moves R subs g).1.state_history, r = g.state_ref := by
  induction subs with
  | nil =>
    intro g hg
    exact ⟨rfl, hg⟩
  | cons p rest ih =>
    intro g hg
    obtain ⟨t, s⟩ := p
    rcases make_move_spec R t s g with h1 | h1 | ⟨m, hfu, hm, h1⟩ | ⟨m, hfu, hm, h1⟩
    · simp only [run_moves, h1]
      exact ih g hg
    · simp only [run_moves, h1]
      exact ⟨by trivial, hg⟩
    · simp only [run_moves, h1]
      exact ih g hg
    · have hg1 : ∀ r ∈ (update_info R t m
          { g with heap := g.heap.set g.state_ref (R.push (get_board g) m) }).state_history,
          r = (update_info R t m
            { g with heap := g.heap.set g.state_ref (R.push (get_board g) m) }).state_ref := by
        intro r hr
        simp only [update_info] at hr ⊢
        rcases List.mem_append.1 hr with hr | hr
        · exact hg r hr
        · simpa using hr
      have h2 := ih (update_info R t m
        { g with heap := g.heap.set g.state_ref (R.push (get_board g) m) }) hg1
      simp only [run_moves, h1]
      exact ⟨h2.1, fun r hr => h2.2 r hr⟩

/-- C9 counterexample: the history does not keep the initial position.
state-history stores the same board reference every time, so after white
plays e2e4 the dereferenced history reads [1, 1] in the stub: its first
element is the live position 1, no longer the initial position 0 the
session was created with. -/
theorem C9_counterexample :
    get_board demo_g0 = 0
    ∧ position_history demo_g0 = [0]
    ∧ make_move demoRules 10 "e2e4" demo_g0 = .ok demo_g1
    ∧ position_history demo_g1 = [1, 1]
    ∧ (position_history demo_g1).head? ≠ some (get_board demo_g0) := by
  refine ⟨?_, ?_, ?_, ?_, ?_⟩ <;> with_unfolding_all decide

/-- C9 amended: every element of position_history aliases the one live
board object, so in every reachable state each dereferenced history
entry equals the current position — the first element equals the initial
position only until the first successful move mutates the shared board. -/
theorem C9_amended [Inhabited B] (R : RulesEngine B) (board : B) (players : Nat)
    (w bl : String) (t incr now : ℚ) (subs : List (ℚ × String)) (x : B)
    (hx : x ∈ position_history
      ((run_moves R subs (init_info R board players w bl t incr now)).1)) :
    x = get_board ((run_moves R subs (init_info R board players w bl t incr now)).1) := by
  have hinv := run_moves_refs R subs (init_info R board players w bl t incr now)
    (by
      intro r hr
      simp only [init_info, List.mem_singleton] at hr
      simpa [init_info] using hr)
  rw [position_history] at hx
  rcases List.mem_map.1 hx with ⟨r, hr, hxe⟩
  have hr0 : r = (run_moves R subs (init_info R board players w bl t incr now)).1.state_ref := by
    rw [hinv.2 r hr]
    exact hinv.1.symm
  rw [← hxe, hr0]
  rfl

/-- C9 amended witness: after the one-move run the dereferenced history
entry 1 is exactly the current board of the final state. -/
theorem C9_amended_witness :
    (1 : Nat) ∈ position_history ((run_moves demoRules [(10, "e2e4")]
        (init_info demoRules 0 2 "white" "black" 300 5 0)).1)
    ∧ (1 : Nat) = get_board ((run_moves demoRules [(10, "e2e4")]
        (init_info demoRules 0 2 "white" "black" 300 5 0)).1) :=
  ⟨by with_unfolding_all decide,
   C9_amended demoRules 0 2 "white" "black" 300 5 0 [(10, "e2e4")] 1
     (by with_unfolding_all decide)⟩

end Pychess
